import Mathlib

/-!
Shallow embedding of `planner_agent.py` (the Planner agent of the Deep
Research system) and verification of its specification.

The embedding models:
  * the `PlannerContext` dataclass with its per-round change tracking,
  * `PlannerAgent._load_system_prompt`, `_load_file_contents` and
    `_build_prompt`,
  * the `plan` conversation loop: usage accounting, classification of the
    model reply (control token / file-write request / protocol violation),
    the scratchpad guardrail, and the top-level exception handler.

The external chat-completion API is modelled as an oracle: a list of
events, each either a normal reply (with its token usage) or an exception
raised inside the loop body.  The file system is an association list from
file names to contents.  Python floats (costs, thinking times) are
modelled as exact rationals; Python string `strip` is modelled by
`pyStrip` over the exact set of code points `str.isspace()` accepts.
-/

namespace PlannerSpec

/-- The characters removed by Python `str.strip()`: exactly the code
points where `str.isspace()` holds (ASCII whitespace, the separator
controls, NEL, and the Unicode space characters). -/
def pyWhitespace (c : Char) : Bool :=
  c == ' ' || c == '\t' || c == '\n' || c == '\r' || c == '\x0b' || c == '\x0c'
    || c == '\x1c' || c == '\x1d' || c == '\x1e' || c == '\x1f'
    || c == '\x85' || c == '\xa0' || c == '\u1680'
    || c == '\u2000' || c == '\u2001' || c == '\u2002' || c == '\u2003'
    || c == '\u2004' || c == '\u2005' || c == '\u2006' || c == '\u2007'
    || c == '\u2008' || c == '\u2009' || c == '\u200a'
    || c == '\u2028' || c == '\u2029' || c == '\u202f' || c == '\u205f'
    || c == '\u3000'

/-- Model of Python `s.strip()`: drop leading and trailing whitespace. -/
def pyStrip (s : String) : String :=
  String.mk (((s.data.dropWhile pyWhitespace).reverse.dropWhile pyWhitespace).reverse)

/-- The file system: an association list from file names to contents; the
most recent write of a name is the first entry with that key. -/
abbrev FileSystem := List (String × String)

/-- Reading a file: `open(filename).read()`.  A missing file raises, which
the embedding reports as an `Except.error` carrying the exception text. -/
def readFile (fs : FileSystem) (filename : String) : Except String String :=
  match fs.lookup filename with
  | some content => Except.ok content
  | none => Except.error ("[Errno 2] No such file or directory: \x27" ++ filename ++ "\x27")

/-- Modelled from the spec: `create_file` lives in `tools.py`, which is not
part of the sources; the spec says the file-write side-effector persists a
file content under the given name (later reads see the latest content). -/
def create_file (fs : FileSystem) (filename : String) (content : String) : FileSystem :=
  (filename, content) :: fs

/-- Modelled from the spec: the `TokenUsage` record of `common.py` is not
part of the sources; the spec lists prompt/completion/total token counts, a
cached-token count, accumulated cost and accumulated thinking time. -/
structure TokenUsage where
  prompt_tokens : Nat
  completion_tokens : Nat
  total_tokens : Nat
  total_cost : ℚ
  thinking_time : ℚ
  cached_prompt_tokens : Nat
deriving DecidableEq

/-- The per-call usage dictionary returned by the API layer, after
`log_usage` has stored the derived monetary cost under `total_cost`. -/
structure CallUsage where
  prompt_tokens : Nat
  completion_tokens : Nat
  total_tokens : Nat
  cached_prompt_tokens : Nat
  total_cost : ℚ
deriving DecidableEq

/-- A `create_file` function call carried by a model reply, after its JSON
arguments have been parsed. -/
structure FunctionCall where
  name : String
  filename : String
  content : String
deriving DecidableEq

/-- The message object of the model reply: optional text content and an
optional function call.  Python truthiness makes `some ""` behave like
`none` in the `if message.content:` test, see `contentTruthy`. -/
structure ModelMessage where
  content : Option String
  function_call : Option FunctionCall
deriving DecidableEq

/-- One successful interaction with the chat-completion API: the reply
message, its token usage, and the measured thinking time. -/
structure CallResult where
  message : ModelMessage
  usage : CallUsage
  thinking_time : ℚ
deriving DecidableEq

/-- Modelled from the spec: one iteration of the loop interacts with the
external completion caller (`tools.chat_completion`, not in the sources);
it either returns a reply or raises an exception with some message. -/
inductive Event where
  | call (r : CallResult)
  | exc (msg : String)
deriving DecidableEq

/-- A message of the conversation list sent to the model. -/
structure ChatMessage where
  role : String
  content : Option String
  function_call : Option FunctionCall
deriving DecidableEq

def userMessage (content : String) : ChatMessage :=
  { role := "user", content := some content, function_call := none }

def systemMessage (content : String) : ChatMessage :=
  { role := "system", content := some content, function_call := none }

def assistantCallMessage (fc : FunctionCall) : ChatMessage :=
  { role := "assistant", content := none, function_call := some fc }

/-- The `PlannerContext` dataclass. -/
structure PlannerContext where
  conversation_history : List ChatMessage
  created_files : List String
  user_input : String
  scratchpad_content : Option String
  total_usage : Option TokenUsage
  debug : Bool
  files_changed_this_round : Finset String
deriving DecidableEq

/-- `PlannerContext.track_file_change`: add the filename to the per-round
change set. -/
def PlannerContext.track_file_change (ctx : PlannerContext) (filename : String) :
    PlannerContext :=
  { ctx with files_changed_this_round := insert filename ctx.files_changed_this_round }

/-- `PlannerContext.reset_file_changes`: clear the per-round change set. -/
def PlannerContext.reset_file_changes (ctx : PlannerContext) : PlannerContext :=
  { ctx with files_changed_this_round := ∅ }

/-- The fixed sentence appended to the system prompt, built from the
current date (`_load_system_prompt`, the `today_prompt` f-string). -/
def today_prompt (today : String) : String :=
  "You are the Planner agent in a multi-agent research system. Today\x27s date is "
    ++ today ++ ". Take this into consideration when you plan tasks and analyze progress."

/-- `PlannerAgent._load_system_prompt`: read `.plannerrules`, strip it and
append the date sentence; raise `FileNotFoundError` when it is absent. -/
def _load_system_prompt (fs : FileSystem) (today : String) : Except String String :=
  match fs.lookup ".plannerrules" with
  | some content => Except.ok (pyStrip content ++ "\n" ++ today_prompt today)
  | none => Except.error "Required .plannerrules file not found"

/-- The `PlannerAgent` object after `__init__`. -/
structure PlannerAgent where
  model : String
  system_prompt : String
deriving DecidableEq

/-- `PlannerAgent.__init__`: store the model name and load the system
prompt; a missing rules file makes construction fail. -/
def PlannerAgent.init (model : String) (fs : FileSystem) (today : String) :
    Except String PlannerAgent :=
  match _load_system_prompt fs today with
  | Except.ok sp => Except.ok { model := model, system_prompt := sp }
  | Except.error e => Except.error e

/-- The try/except body of `_load_file_contents` for one file: the file
content, or the inline placeholder built from the exception text. -/
def loadedContent (fs : FileSystem) (filename : String) : String :=
  match readFile fs filename with
  | Except.ok content => content
  | Except.error e => "[Error reading file: " ++ e ++ "]"

/-- `PlannerAgent._load_file_contents`: map every created file to its
content, or to the inline placeholder when the read raises. -/
def _load_file_contents (created_files : List String) (fs : FileSystem) :
    List (String × String) :=
  created_files.map fun filename => (filename, loadedContent fs filename)

/-- One `--- filename ---` block of the context message. -/
def renderFileBlock (p : String × String) : String :=
  "\n--- " ++ p.1 ++ " ---\n" ++ p.2 ++ "\n"

/-- The `for filename, content in file_contents.items()` loop appending
one block per loaded file. -/
def renderFiles : List (String × String) → String
  | [] => ""
  | p :: rest => renderFileBlock p ++ renderFiles rest

/-- The `context_message` string assembled by `_build_prompt`. -/
def build_context_message (user_input : String) (created_files : List String)
    (fs : FileSystem) : String :=
  let file_contents := _load_file_contents created_files fs
  "\nCurrent User Request:\n" ++ user_input ++ "\n\n"
    ++ (if file_contents.isEmpty then "" else "Relevant Files:\n" ++ renderFiles file_contents)
    ++ ("\nAvailable Files: " ++ String.intercalate ", " created_files ++ "\n")

/-- `PlannerAgent._build_prompt`: the system message followed by the user
message holding the context. -/
def _build_prompt (system_prompt : String) (context_user_input : String)
    (context_created_files : List String) (fs : FileSystem) : List ChatMessage :=
  [systemMessage system_prompt,
   userMessage (build_context_message context_user_input context_created_files fs)]

/-- Lines 239-255 of `plan`: fold one call usage into the running total on
the context (`if not context.total_usage: ... else: ... += ...`). -/
def accumulate_usage (prev : Option TokenUsage) (u : CallUsage) (thinking_time : ℚ) :
    TokenUsage :=
  match prev with
  | none =>
      { prompt_tokens := u.prompt_tokens
        completion_tokens := u.completion_tokens
        total_tokens := u.total_tokens
        total_cost := u.total_cost
        thinking_time := thinking_time
        cached_prompt_tokens := u.cached_prompt_tokens }
  | some t =>
      { prompt_tokens := t.prompt_tokens + u.prompt_tokens
        completion_tokens := t.completion_tokens + u.completion_tokens
        total_tokens := t.total_tokens + u.total_tokens
        total_cost := t.total_cost + u.total_cost
        thinking_time := t.thinking_time + thinking_time
        cached_prompt_tokens := t.cached_prompt_tokens + u.cached_prompt_tokens }

/-- The state threaded through one `plan` invocation: the message list,
the (mutated-in-place) context and the file system. -/
structure LoopState where
  messages : List ChatMessage
  ctx : PlannerContext
  fs : FileSystem
deriving DecidableEq

/-- Python truthiness of `message.content`: `None` and `""` are falsy. -/
def contentTruthy : Option String → Bool
  | none => false
  | some s => s != ""

/-- The warning appended when the executor is invoked without updating
`scratchpad.md` this round. -/
def executor_warning : String :=
  "Warning: You are trying to invoke the executor without updating scratchpad.md. "
    ++ "The executor will receive the same instructions as last time. "
    ++ "Please update scratchpad.md with detailed instructions for the executor first."

/-- The warning appended when the model emits arbitrary prose. -/
def content_warning : String :=
  "Warning: Planner should not output content directly. Please use create_file tool to write any output to files."

/-- What the loop body decides to do with one reply. -/
inductive Action where
  | returnStr (s : String)
  | appendWarning (w : String)
  | writeFile (fc : FunctionCall)
deriving DecidableEq

/-- Lines 278-301 of `plan`: classification of a truthy content string
(after `strip`): the two control tokens, the scratchpad guardrail, and the
protocol-violation warning. -/
def classifyContent (files_changed : Finset String) (content : String) : Action :=
  if content = "TASK_COMPLETE" then Action.returnStr "TASK_COMPLETE"
  else if content = "INVOKE_EXECUTOR" then
    if "scratchpad.md" ∉ files_changed then Action.appendWarning executor_warning
    else Action.returnStr content
  else Action.appendWarning content_warning

/-- Lines 274-316 of `plan`: content replies are checked first (with
Python truthiness), then the function call; neither means the terminal
progress-tracking error. -/
def classify (files_changed : Finset String) (msg : ModelMessage) : Action :=
  if contentTruthy msg.content then
    classifyContent files_changed (pyStrip (msg.content.getD ""))
  else
    match msg.function_call with
    | none => Action.returnStr "Error: Failed to update progress tracking"
    | some fc => Action.writeFile fc

/-- Apply the usage accounting of one call to the loop state. -/
def withUsage (st : LoopState) (r : CallResult) : LoopState :=
  { st with
      ctx := { st.ctx with
        total_usage := some (accumulate_usage st.ctx.total_usage r.usage r.thinking_time) } }

/-- `messages.append({"role": "user", "content": w})`. -/
def appendUserMessage (st : LoopState) (w : String) : LoopState :=
  { st with messages := st.messages ++ [userMessage w] }

/-- Lines 313-331 of `plan`: perform the write, track the change, and
append the assistant function-call turn plus the success confirmation. -/
def applyWrite (st : LoopState) (fc : FunctionCall) : LoopState :=
  { messages := st.messages
      ++ [assistantCallMessage fc,
          userMessage ("Successfully created/updated file: " ++ fc.filename)]
    ctx := st.ctx.track_file_change fc.filename
    fs := create_file st.fs fc.filename fc.content }

/-- The outcome of one loop iteration on a normal reply. -/
inductive StepOutcome where
  | terminal (s : String) (st : LoopState)
  | next (st : LoopState)
deriving DecidableEq

/-- One iteration of the `while True` body on a normal API reply: account
the usage, then act on the classification.  (The usage accounting of lines
238-255 involves neither the change set nor the message, so classifying on
the pre-call change set is equivalent to the source order.) -/
def planStep (st : LoopState) (r : CallResult) : StepOutcome :=
  match classify st.ctx.files_changed_this_round r.message with
  | Action.returnStr s => StepOutcome.terminal s (withUsage st r)
  | Action.appendWarning w => StepOutcome.next (appendUserMessage (withUsage st r) w)
  | Action.writeFile fc => StepOutcome.next (applyWrite (withUsage st r) fc)

/-- How the `while True` body ends, before the `except` handler: a
`return`, exhaustion of the reply oracle (the loop is still running), or
an exception escaping the body. -/
inductive LoopResult where
  | finished (s : String) (st : LoopState)
  | outOfEvents (st : LoopState)
  | raised (msg : String) (st : LoopState)
deriving DecidableEq

/-- The loop state carried by a `LoopResult`. -/
def LoopResult.state : LoopResult → LoopState
  | LoopResult.finished _ st => st
  | LoopResult.outOfEvents st => st
  | LoopResult.raised _ st => st

/-- The `while True` loop of `plan`, driven by the event oracle.  An
exception event escapes the body (to be caught by `plan`); exceptions are
modelled as raised at the API call, before the iteration mutates state. -/
def planLoopBody : LoopState → List Event → LoopResult
  | st, [] => LoopResult.outOfEvents st
  | st, Event.exc m :: _ => LoopResult.raised m st
  | st, Event.call r :: rest =>
    match planStep st r with
    | StepOutcome.terminal s st1 => LoopResult.finished s st1
    | StepOutcome.next st1 => planLoopBody st1 rest

/-- What `plan` gives its caller: a returned string (with the context
state the caller observes), a still-running loop (oracle exhausted), or an
exception that propagated out of `plan` uncaught. -/
inductive PlanResult where
  | returned (s : String) (st : LoopState)
  | stillLooping (st : LoopState)
  | uncaught (msg : String)
deriving DecidableEq

/-- The `try/except` of lines 195-338: a `return` passes through, and any
exception escaping the loop body becomes the terminal error string. -/
def finishLoop : LoopResult → PlanResult
  | LoopResult.finished s st => PlanResult.returned s st
  | LoopResult.outOfEvents st => PlanResult.stillLooping st
  | LoopResult.raised m st =>
      PlanResult.returned ("Error during planning: " ++ m) st

/-- Lines 186-189 of `plan`: reset the change tracking, then build the
prompt; the initial loop state. -/
def initLoopState (system_prompt : String) (ctx : PlannerContext) (fs : FileSystem) :
    LoopState :=
  let ctx1 := ctx.reset_file_changes
  { messages := _build_prompt system_prompt ctx1.user_input ctx1.created_files fs
    ctx := ctx1
    fs := fs }

/-- `PlannerAgent.plan`.  `dump_prompt` is the outcome of the debug-mode
`save_prompt_to_file` call of line 193 (file IO that can raise); it runs
before the `try` block, so its exception propagates to the caller. -/
def plan (system_prompt : String) (dump_prompt : Except String Unit)
    (events : List Event) (ctx : PlannerContext) (fs : FileSystem) : PlanResult :=
  let st := initLoopState system_prompt ctx fs
  if ctx.debug then
    match dump_prompt with
    | Except.error e => PlanResult.uncaught e
    | Except.ok _ => finishLoop (planLoopBody st events)
  else
    finishLoop (planLoopBody st events)

/-- The string `plan` returned, when it returned one. -/
def PlanResult.returnedString : PlanResult → Option String
  | PlanResult.returned s _ => some s
  | _ => none

theorem withUsage_files_changed (st : LoopState) (r : CallResult) :
    (withUsage st r).ctx.files_changed_this_round = st.ctx.files_changed_this_round := rfl

theorem withUsage_created_files (st : LoopState) (r : CallResult) :
    (withUsage st r).ctx.created_files = st.ctx.created_files := rfl

theorem withUsage_total_usage (st : LoopState) (r : CallResult) :
    (withUsage st r).ctx.total_usage
      = some (accumulate_usage st.ctx.total_usage r.usage r.thinking_time) := rfl

theorem appendUserMessage_ctx (st : LoopState) (w : String) :
    (appendUserMessage st w).ctx = st.ctx := rfl

theorem applyWrite_files_changed (st : LoopState) (fc : FunctionCall) :
    (applyWrite st fc).ctx.files_changed_this_round
      = insert fc.filename st.ctx.files_changed_this_round := rfl

theorem applyWrite_created_files (st : LoopState) (fc : FunctionCall) :
    (applyWrite st fc).ctx.created_files = st.ctx.created_files := rfl

theorem applyWrite_total_usage (st : LoopState) (fc : FunctionCall) :
    (applyWrite st fc).ctx.total_usage = st.ctx.total_usage := rfl

theorem classifyContent_ne_writeFile (files : Finset String) (c : String)
    (fc : FunctionCall) : classifyContent files c ≠ Action.writeFile fc := by
  unfold classifyContent
  split
  · simp
  · split
    · split
      · simp
      · simp
    · simp

theorem classifyContent_returnStr (files : Finset String) (c s : String)
    (h : classifyContent files c = Action.returnStr s) :
    s = "TASK_COMPLETE" ∨ (s = "INVOKE_EXECUTOR" ∧ "scratchpad.md" ∈ files)
      ∨ s = "Error: Failed to update progress tracking" := by
  unfold classifyContent at h
  split at h
  · left
    cases h
    rfl
  · split at h
    · split at h
      · cases h
      · rename_i hc hmem
        cases h
        right
        left
        exact ⟨hc, not_not.mp hmem⟩
    · cases h

theorem classify_returnStr (files : Finset String) (msg : ModelMessage) (s : String)
    (h : classify files msg = Action.returnStr s) :
    s = "TASK_COMPLETE" ∨ (s = "INVOKE_EXECUTOR" ∧ "scratchpad.md" ∈ files)
      ∨ s = "Error: Failed to update progress tracking" := by
  unfold classify at h
  split at h
  · exact classifyContent_returnStr _ _ _ h
  · split at h
    · cases h
      right
      right
      rfl
    · cases h

theorem classify_writeFile (files : Finset String) (msg : ModelMessage)
    (fc : FunctionCall) (h : classify files msg = Action.writeFile fc) :
    msg.function_call = some fc := by
  unfold classify at h
  split at h
  · exact absurd h (classifyContent_ne_writeFile _ _ _)
  · split at h
    · cases h
    · rename_i heq
      cases h
      exact heq

theorem error_during_planning_ne_handoff (m : String) :
    "Error during planning: " ++ m ≠ "INVOKE_EXECUTOR" := by
  intro h
  have hlen := congrArg String.length h
  rw [String.length_append] at hlen
  have h1 : ("Error during planning: " : String).length = 23 := by decide
  have h2 : ("INVOKE_EXECUTOR" : String).length = 15 := by decide
  omega

theorem planLoopBody_no_handoff (events : List Event) :
    ∀ st : LoopState,
    (∀ r fc, Event.call r ∈ events → r.message.function_call = some fc →
      fc.filename ≠ "scratchpad.md") →
    "scratchpad.md" ∉ st.ctx.files_changed_this_round →
    ∀ s st1, planLoopBody st events = LoopResult.finished s st1 →
    s ≠ "INVOKE_EXECUTOR" := by
  induction events with
  | nil =>
    intro st _ _ s st1 h
    simp [planLoopBody] at h
  | cons e rest ih =>
    intro st hev hmem s st1 h
    cases e with
    | exc m => simp [planLoopBody] at h
    | call r =>
      cases hc : classify st.ctx.files_changed_this_round r.message with
      | returnStr s0 =>
        simp only [planLoopBody, planStep, hc] at h
        cases h
        rcases classify_returnStr _ _ _ hc with h1 | ⟨h1, h2⟩ | h1
        · subst h1; decide
        · exact absurd h2 hmem
        · subst h1; decide
      | appendWarning w =>
        simp only [planLoopBody, planStep, hc] at h
        exact ih (appendUserMessage (withUsage st r) w)
          (fun r1 fc1 hr1 hfc1 => hev r1 fc1 (List.mem_cons_of_mem _ hr1) hfc1)
          hmem s st1 h
      | writeFile fc =>
        simp only [planLoopBody, planStep, hc] at h
        refine ih (applyWrite (withUsage st r) fc)
          (fun r1 fc1 hr1 hfc1 => hev r1 fc1 (List.mem_cons_of_mem _ hr1) hfc1)
          ?_ s st1 h
        rw [applyWrite_files_changed, withUsage_files_changed]
        rw [Finset.mem_insert]
        push_neg
        exact ⟨Ne.symm (hev r fc (List.mem_cons_self _ _) (classify_writeFile _ _ _ hc)), hmem⟩

theorem pyStrip_handoff : pyStrip "INVOKE_EXECUTOR" = "INVOKE_EXECUTOR" := by decide

theorem planStep_handoff_guardrail (st : LoopState) (r : CallResult)
    (hmem : "scratchpad.md" ∉ st.ctx.files_changed_this_round)
    (hc : r.message.content = some "INVOKE_EXECUTOR") :
    planStep st r = StepOutcome.next (appendUserMessage (withUsage st r) executor_warning) := by
  have hcl : classify st.ctx.files_changed_this_round r.message
      = Action.appendWarning executor_warning := by
    unfold classify
    rw [hc]
    have ht : contentTruthy (some "INVOKE_EXECUTOR") = true := by decide
    rw [ht]
    simp only [if_true, Option.getD_some, pyStrip_handoff]
    unfold classifyContent
    rw [if_neg (by decide : ¬("INVOKE_EXECUTOR" : String) = "TASK_COMPLETE"),
      if_pos rfl, if_pos hmem]
  simp only [planStep, hcl]

/-- C1: in a round whose change set lacks scratchpad.md, a reply whose
text is the handoff token INVOKE_EXECUTOR is never returned by plan: the
guardrail appends the executor warning as a user message and the loop
resumes.  First conjunct: if no reply of the round requests a write of
scratchpad.md, plan never returns INVOKE_EXECUTOR.  Second conjunct: on a
handoff reply with the guardrail failing, the step appends the warning and
continues. -/
theorem plan_handoff_requires_scratchpad :
    (∀ system_prompt dump_prompt events ctx fs,
      (∀ r fc, Event.call r ∈ events → r.message.function_call = some fc →
        fc.filename ≠ "scratchpad.md") →
      (plan system_prompt dump_prompt events ctx fs).returnedString
        ≠ some "INVOKE_EXECUTOR")
    ∧
    (∀ st r, "scratchpad.md" ∉ st.ctx.files_changed_this_round →
      r.message.content = some "INVOKE_EXECUTOR" →
      planStep st r
        = StepOutcome.next (appendUserMessage (withUsage st r) executor_warning)) := by
  constructor
  · intro system_prompt dump_prompt events ctx fs hev
    have hloop : ∀ s st1,
        planLoopBody (initLoopState system_prompt ctx fs) events
          = LoopResult.finished s st1 → s ≠ "INVOKE_EXECUTOR" := by
      apply planLoopBody_no_handoff events _ hev
      show "scratchpad.md" ∉ (∅ : Finset String)
      exact Finset.not_mem_empty _
    unfold plan
    have hfin : ∀ res : LoopResult,
        res = planLoopBody (initLoopState system_prompt ctx fs) events →
        (finishLoop res).returnedString ≠ some "INVOKE_EXECUTOR" := by
      intro res hres
      cases res with
      | finished s st1 =>
        simp only [finishLoop, PlanResult.returnedString, ne_eq, Option.some_inj]
        exact hloop s st1 hres.symm
      | outOfEvents st1 => simp [finishLoop, PlanResult.returnedString]
      | raised m st1 =>
        simp only [finishLoop, PlanResult.returnedString, ne_eq, Option.some_inj]
        exact error_during_planning_ne_handoff m
    by_cases hd : ctx.debug
    · rw [if_pos hd]
      cases dump_prompt with
      | error e => simp [PlanResult.returnedString]
      | ok u => exact hfin _ rfl
    · rw [if_neg hd]
      exact hfin _ rfl
  · exact planStep_handoff_guardrail

def wUsage : CallUsage :=
  { prompt_tokens := 100, completion_tokens := 20, total_tokens := 120,
    cached_prompt_tokens := 10, total_cost := 1/100 }

def wCtx : PlannerContext :=
  { conversation_history := [], created_files := ["notes.md"],
    user_input := "find sources", scratchpad_content := none,
    total_usage := none, debug := false, files_changed_this_round := ∅ }

def wState : LoopState := { messages := [], ctx := wCtx, fs := [] }

def wReplyComplete : CallResult :=
  { message := { content := some "TASK_COMPLETE", function_call := none },
    usage := wUsage, thinking_time := 2 }

def wReplyExec : CallResult :=
  { message := { content := some "INVOKE_EXECUTOR", function_call := none },
    usage := wUsage, thinking_time := 2 }

/-- C1 witness: both conjuncts applied at concrete inputs. -/
theorem plan_handoff_requires_scratchpad_w :
    (plan "sp" (Except.ok ()) [Event.call wReplyComplete] wCtx []).returnedString
        ≠ some "INVOKE_EXECUTOR"
    ∧ planStep wState wReplyExec
        = StepOutcome.next (appendUserMessage (withUsage wState wReplyExec) executor_warning) := by
  constructor
  · apply plan_handoff_requires_scratchpad.1 "sp" (Except.ok ()) _ wCtx []
    intro r fc hr hfc
    simp only [List.mem_singleton, Event.call.injEq] at hr
    subst hr
    simp [wReplyComplete] at hfc
  · exact plan_handoff_requires_scratchpad.2 wState wReplyExec (by decide) rfl

/-- A reply whose raw text is the completion token followed by a trailing
space: not exactly equal to either control token. -/
def cexReplyTrailing : CallResult :=
  { message := { content := some "TASK_COMPLETE ", function_call := none },
    usage := wUsage, thinking_time := 2 }

/-- C2 counterexample: the raw reply text is "TASK_COMPLETE " with a
trailing space, which is not exactly equal to either control token, yet
the step terminates the round returning TASK_COMPLETE, because the code
strips the content before comparing. -/
theorem free_text_termination_cex :
    ("TASK_COMPLETE " : String) ≠ "TASK_COMPLETE"
    ∧ ("TASK_COMPLETE " : String) ≠ "INVOKE_EXECUTOR"
    ∧ cexReplyTrailing.message.content = some "TASK_COMPLETE "
    ∧ planStep wState cexReplyTrailing
        = StepOutcome.terminal "TASK_COMPLETE" (withUsage wState cexReplyTrailing) := by
  refine ⟨by decide, by decide, rfl, ?_⟩
  have hcl : classify wState.ctx.files_changed_this_round cexReplyTrailing.message
      = Action.returnStr "TASK_COMPLETE" := by decide
  simp only [planStep, hcl]

/-- C2 (amended): a free-text reply whose text, after stripping leading
and trailing whitespace, is not exactly equal to one of the two control
tokens never terminates the round: the protocol-violation warning is
appended as a user message and the loop resumes. -/
theorem free_text_nontoken_never_terminates (st : LoopState) (r : CallResult) (s : String)
    (hc : r.message.content = some s) (hne : s ≠ "")
    (h1 : pyStrip s ≠ "TASK_COMPLETE") (h2 : pyStrip s ≠ "INVOKE_EXECUTOR") :
    planStep st r = StepOutcome.next (appendUserMessage (withUsage st r) content_warning) := by
  have hcl : classify st.ctx.files_changed_this_round r.message
      = Action.appendWarning content_warning := by
    unfold classify
    rw [hc]
    have ht : contentTruthy (some s) = true := by
      simp only [contentTruthy, bne_iff_ne, ne_eq]
      exact hne
    rw [ht]
    simp only [if_true, Option.getD_some]
    unfold classifyContent
    rw [if_neg h1, if_neg h2]
  simp only [planStep, hcl]

/-- A free-text reply with arbitrary prose. -/
def wReplyProse : CallResult :=
  { message := { content := some "I will plan the research now", function_call := none },
    usage := wUsage, thinking_time := 2 }

/-- C2 witness: the amended theorem applied at a concrete prose reply. -/
theorem free_text_nontoken_never_terminates_w :
    planStep wState wReplyProse
      = StepOutcome.next (appendUserMessage (withUsage wState wReplyProse) content_warning) :=
  free_text_nontoken_never_terminates wState wReplyProse "I will plan the research now"
    rfl (by decide) (by decide) (by decide)

/-- The loop state carried by a `StepOutcome`. -/
def StepOutcome.state : StepOutcome → LoopState
  | StepOutcome.terminal _ st => st
  | StepOutcome.next st => st

theorem planStep_total_usage (st : LoopState) (r : CallResult) :
    (StepOutcome.state (planStep st r)).ctx.total_usage
      = some (accumulate_usage st.ctx.total_usage r.usage r.thinking_time) := by
  cases hc : classify st.ctx.files_changed_this_round r.message <;>
    simp [planStep, hc, StepOutcome.state, appendUserMessage, applyWrite, withUsage,
      PlannerContext.track_file_change]

/-- The per-call usages (with thinking times) of the model calls the loop
actually performs on a given oracle: spec-level instrumentation used to
state the accounting property. -/
def consumedCalls : LoopState → List Event → List (CallUsage × ℚ)
  | _, [] => []
  | _, Event.exc _ :: _ => []
  | st, Event.call r :: rest =>
    match planStep st r with
    | StepOutcome.terminal _ _ => [(r.usage, r.thinking_time)]
    | StepOutcome.next st1 => (r.usage, r.thinking_time) :: consumedCalls st1 rest

/-- Folding a sequence of calls into a running total, starting from a
given accumulator, exactly as lines 239-255 do call after call. -/
def usageFold (acc : Option TokenUsage) (calls : List (CallUsage × ℚ)) :
    Option TokenUsage :=
  calls.foldl (fun a c => some (accumulate_usage a c.1 c.2)) acc

/-- The running total after a sequence of calls on a fresh context. -/
def usage_after (calls : List (CallUsage × ℚ)) : Option TokenUsage :=
  usageFold none calls

/-- The componentwise sum of a sequence of per-call usages. -/
def sum_usage (calls : List (CallUsage × ℚ)) : TokenUsage :=
  { prompt_tokens := (calls.map fun c => c.1.prompt_tokens).sum
    completion_tokens := (calls.map fun c => c.1.completion_tokens).sum
    total_tokens := (calls.map fun c => c.1.total_tokens).sum
    total_cost := (calls.map fun c => c.1.total_cost).sum
    thinking_time := (calls.map fun c => c.2).sum
    cached_prompt_tokens := (calls.map fun c => c.1.cached_prompt_tokens).sum }

/-- Componentwise addition of usage totals. -/
def addUsage (t u : TokenUsage) : TokenUsage :=
  { prompt_tokens := t.prompt_tokens + u.prompt_tokens
    completion_tokens := t.completion_tokens + u.completion_tokens
    total_tokens := t.total_tokens + u.total_tokens
    total_cost := t.total_cost + u.total_cost
    thinking_time := t.thinking_time + u.thinking_time
    cached_prompt_tokens := t.cached_prompt_tokens + u.cached_prompt_tokens }

theorem accumulate_usage_some (t : TokenUsage) (u : CallUsage) (tt : ℚ) :
    accumulate_usage (some t) u tt = addUsage t (accumulate_usage none u tt) := rfl

theorem addUsage_assoc (a b c : TokenUsage) :
    addUsage (addUsage a b) c = addUsage a (addUsage b c) := by
  simp [addUsage, add_assoc]

theorem sum_usage_nil : sum_usage [] = addUsage (sum_usage []) (sum_usage []) := by
  simp [sum_usage, addUsage]

theorem addUsage_sum_usage_nil (t : TokenUsage) : addUsage t (sum_usage []) = t := by
  simp [sum_usage, addUsage]

theorem sum_usage_cons (c : CallUsage × ℚ) (cs : List (CallUsage × ℚ)) :
    sum_usage (c :: cs) = addUsage (accumulate_usage none c.1 c.2) (sum_usage cs) := by
  simp [sum_usage, addUsage, accumulate_usage]

theorem usageFold_some (calls : List (CallUsage × ℚ)) :
    ∀ t : TokenUsage, usageFold (some t) calls = some (addUsage t (sum_usage calls)) := by
  induction calls with
  | nil => intro t; simp [usageFold, addUsage_sum_usage_nil]
  | cons c cs ih =>
    intro t
    show usageFold (some (accumulate_usage (some t) c.1 c.2)) cs = _
    rw [accumulate_usage_some, ih, addUsage_assoc, ← sum_usage_cons]

theorem usage_after_eq_sum (calls : List (CallUsage × ℚ)) (h : calls ≠ []) :
    usage_after calls = some (sum_usage calls) := by
  cases calls with
  | nil => exact absurd rfl h
  | cons c cs =>
    show usageFold (some (accumulate_usage none c.1 c.2)) cs = _
    rw [usageFold_some, ← sum_usage_cons]

theorem planLoopBody_total_usage (events : List Event) :
    ∀ st : LoopState,
    (planLoopBody st events).state.ctx.total_usage
      = usageFold st.ctx.total_usage (consumedCalls st events) := by
  induction events with
  | nil =>
    intro st
    simp [planLoopBody, consumedCalls, usageFold, LoopResult.state]
  | cons e rest ih =>
    intro st
    cases e with
    | exc m => simp [planLoopBody, consumedCalls, usageFold, LoopResult.state]
    | call r =>
      cases hs : planStep st r with
      | terminal s st1 =>
        have hu := planStep_total_usage st r
        rw [hs] at hu
        simp only [StepOutcome.state] at hu
        simp only [planLoopBody, consumedCalls, hs, LoopResult.state]
        rw [hu]
        rfl
      | next st1 =>
        have hu := planStep_total_usage st r
        rw [hs] at hu
        simp only [StepOutcome.state] at hu
        simp only [planLoopBody, consumedCalls, hs]
        rw [ih st1]
        show _ = usageFold (some (accumulate_usage st.ctx.total_usage r.usage r.thinking_time))
          (consumedCalls st1 rest)
        rw [hu]

/-- C3: within one plan invocation on a fresh context (total_usage starts
as None), the running total after the loop equals the componentwise fold
of the consumed calls; and on any non-empty call sequence that fold is the
componentwise sum of the calls' prompt tokens, completion tokens, total
tokens, cached prompt tokens, cost and thinking time. -/
theorem total_usage_componentwise_sum :
    (∀ (events : List Event) (st : LoopState), st.ctx.total_usage = none →
      (planLoopBody st events).state.ctx.total_usage
        = usage_after (consumedCalls st events))
    ∧ (∀ calls : List (CallUsage × ℚ), calls ≠ [] →
      usage_after calls = some (sum_usage calls)) := by
  constructor
  · intro events st h
    rw [planLoopBody_total_usage, h]
    rfl
  · exact usage_after_eq_sum

/-- C3 witness: both conjuncts at a concrete run of one call. -/
theorem total_usage_componentwise_sum_w :
    ((planLoopBody wState [Event.call wReplyComplete]).state.ctx.total_usage
      = usage_after (consumedCalls wState [Event.call wReplyComplete]))
    ∧ usage_after [(wUsage, 2)] = some (sum_usage [(wUsage, 2)]) :=
  ⟨total_usage_componentwise_sum.1 [Event.call wReplyComplete] wState rfl,
   total_usage_componentwise_sum.2 [(wUsage, 2)] (by decide)⟩

theorem classify_no_content (files : Finset String) (msg : ModelMessage)
    (ht : contentTruthy msg.content = false) :
    classify files msg
      = (match msg.function_call with
         | none => Action.returnStr "Error: Failed to update progress tracking"
         | some fc => Action.writeFile fc) := by
  unfold classify
  rw [ht]
  simp

/-- C4: a file-write request handled in a round puts the filename into the
round's files_changed_this_round set, and the set keeps exactly one
occurrence, with repeated tracking of the same name idempotent. -/
theorem file_write_tracked_exactly_once (st : LoopState) (r : CallResult)
    (fc : FunctionCall) (h1 : contentTruthy r.message.content = false)
    (h2 : r.message.function_call = some fc) :
    planStep st r = StepOutcome.next (applyWrite (withUsage st r) fc)
    ∧ fc.filename ∈ (applyWrite (withUsage st r) fc).ctx.files_changed_this_round
    ∧ ((applyWrite (withUsage st r) fc).ctx.files_changed_this_round).val.count
        fc.filename = 1
    ∧ ∀ (ctx : PlannerContext) (f : String),
        (ctx.track_file_change f).track_file_change f = ctx.track_file_change f := by
  have hcl : classify st.ctx.files_changed_this_round r.message
      = Action.writeFile fc := by
    rw [classify_no_content _ _ h1, h2]
  refine ⟨by simp only [planStep, hcl], ?_, ?_, ?_⟩
  · rw [applyWrite_files_changed]
    exact Finset.mem_insert_self _ _
  · rw [applyWrite_files_changed]
    exact Multiset.count_eq_one_of_mem (Finset.nodup _)
      (Finset.mem_def.mp (Finset.mem_insert_self _ _))
  · intro ctx f
    simp [PlannerContext.track_file_change, Finset.insert_idem]

/-- A reply carrying only a create_file call that writes scratchpad.md. -/
def wWrite : FunctionCall :=
  { name := "create_file", filename := "scratchpad.md", content := "step 1: search" }

def wReplyWrite : CallResult :=
  { message := { content := none, function_call := some wWrite },
    usage := wUsage, thinking_time := 1 }

/-- C4 witness: the theorem applied at a concrete file-write reply. -/
theorem file_write_tracked_exactly_once_w :
    planStep wState wReplyWrite
      = StepOutcome.next (applyWrite (withUsage wState wReplyWrite) wWrite)
    ∧ wWrite.filename
        ∈ (applyWrite (withUsage wState wReplyWrite) wWrite).ctx.files_changed_this_round
    ∧ ((applyWrite (withUsage wState wReplyWrite) wWrite).ctx.files_changed_this_round).val.count
        wWrite.filename = 1
    ∧ ∀ (ctx : PlannerContext) (f : String),
        (ctx.track_file_change f).track_file_change f = ctx.track_file_change f :=
  file_write_tracked_exactly_once wState wReplyWrite wWrite rfl rfl

/-- C7: constructing a PlannerAgent fails with the file-not-found error
when .plannerrules is absent; when present, construction succeeds and the
system prompt is the stripped file content followed by the dated
sentence. -/
theorem init_requires_rules_file (model : String) (fs : FileSystem) (today : String) :
    (fs.lookup ".plannerrules" = none →
      PlannerAgent.init model fs today
        = Except.error "Required .plannerrules file not found")
    ∧ (∀ content, fs.lookup ".plannerrules" = some content →
      PlannerAgent.init model fs today
        = Except.ok (PlannerAgent.mk model
            (pyStrip content ++ "\n" ++ today_prompt today))) := by
  constructor
  · intro h
    simp [PlannerAgent.init, _load_system_prompt, h]
  · intro content h
    simp [PlannerAgent.init, _load_system_prompt, h]

/-- C7 witness: an empty file system lacks the rules file; a file system
holding it yields the composed system prompt. -/
theorem init_requires_rules_file_w :
    PlannerAgent.init "o1" [] "2026-10-12"
      = Except.error "Required .plannerrules file not found"
    ∧ PlannerAgent.init "o1" [(".plannerrules", " Plan carefully. ")] "2026-10-12"
      = Except.ok (PlannerAgent.mk "o1"
          (pyStrip " Plan carefully. " ++ "\n" ++ today_prompt "2026-10-12")) :=
  ⟨(init_requires_rules_file "o1" [] "2026-10-12").1 rfl,
   (init_requires_rules_file "o1" [(".plannerrules", " Plan carefully. ")] "2026-10-12").2
     " Plan carefully. " rfl⟩

/-- C10: a reply whose text is the empty string is treated as having no
content: it never reaches the warning path; with no function call either,
the step terminates with the progress-tracking error string, and with a
function call it executes the write. -/
theorem empty_content_treated_as_no_content (st : LoopState) (r : CallResult)
    (hc : r.message.content = some "") :
    (r.message.function_call = none →
      planStep st r = StepOutcome.terminal "Error: Failed to update progress tracking"
        (withUsage st r))
    ∧ (∀ fc, r.message.function_call = some fc →
      planStep st r = StepOutcome.next (applyWrite (withUsage st r) fc)) := by
  have ht : contentTruthy r.message.content = false := by
    rw [hc]
    rfl
  constructor
  · intro hf
    have hcl : classify st.ctx.files_changed_this_round r.message
        = Action.returnStr "Error: Failed to update progress tracking" := by
      rw [classify_no_content _ _ ht, hf]
    simp only [planStep, hcl]
  · intro fc hf
    have hcl : classify st.ctx.files_changed_this_round r.message
        = Action.writeFile fc := by
      rw [classify_no_content _ _ ht, hf]
    simp only [planStep, hcl]

/-- A reply with empty text content and no function call. -/
def wReplyEmpty : CallResult :=
  { message := { content := some "", function_call := none },
    usage := wUsage, thinking_time := 1 }

/-- C10 witness: the theorem applied at a concrete empty-content reply. -/
theorem empty_content_treated_as_no_content_w :
    planStep wState wReplyEmpty
      = StepOutcome.terminal "Error: Failed to update progress tracking"
          (withUsage wState wReplyEmpty) :=
  (empty_content_treated_as_no_content wState wReplyEmpty rfl).1 rfl

theorem _load_file_contents_key_count (created : List String) (fs : FileSystem)
    (f : String) :
    ((_load_file_contents created fs).filter (fun p => p.1 == f)).length
      = created.count f := by
  induction created with
  | nil => rfl
  | cons x rest ih =>
    simp only [_load_file_contents] at ih
    simp only [_load_file_contents, List.map_cons, List.filter_cons, List.count_cons]
    by_cases hx : x = f
    · subst hx
      simp [ih]
    · simp [beq_eq_false_iff_ne.mpr hx, ih]

/-- C8: a created file whose read fails does not abort prompt building:
it is mapped to the inline error placeholder, the loaded list still has
one entry per created file, and (created_files being a set, hence without
duplicates) the failing file gets exactly one entry. -/
theorem unreadable_file_gets_placeholder (created : List String) (fs : FileSystem)
    (f e : String) (h1 : f ∈ created) (h2 : readFile fs f = Except.error e) :
    (f, "[Error reading file: " ++ e ++ "]") ∈ _load_file_contents created fs
    ∧ (_load_file_contents created fs).length = created.length
    ∧ (created.Nodup →
        ((_load_file_contents created fs).filter (fun p => p.1 == f)).length = 1) := by
  refine ⟨?_, by simp [_load_file_contents], ?_⟩
  · have hl : loadedContent fs f = "[Error reading file: " ++ e ++ "]" := by
      simp [loadedContent, h2]
    exact List.mem_map.mpr ⟨f, h1, by rw [hl]⟩
  · intro hnd
    rw [_load_file_contents_key_count]
    exact List.count_eq_one_of_mem hnd h1

/-- C8 witness: a single created file that is absent from the file
system. -/
theorem unreadable_file_gets_placeholder_w :
    ("missing.md", "[Error reading file: "
        ++ "[Errno 2] No such file or directory: \x27missing.md\x27" ++ "]")
      ∈ _load_file_contents ["missing.md"] []
    ∧ (_load_file_contents ["missing.md"] []).length = (["missing.md"] : List String).length
    ∧ ((["missing.md"] : List String).Nodup →
        ((_load_file_contents ["missing.md"] []).filter
          (fun p => p.1 == "missing.md")).length = 1) :=
  unreadable_file_gets_placeholder ["missing.md"] []
    "missing.md" "[Errno 2] No such file or directory: \x27missing.md\x27"
    (by simp) rfl

theorem planStep_created_files (st : LoopState) (r : CallResult) :
    (StepOutcome.state (planStep st r)).ctx.created_files = st.ctx.created_files := by
  cases hc : classify st.ctx.files_changed_this_round r.message <;>
    simp [planStep, hc, StepOutcome.state, appendUserMessage, applyWrite, withUsage,
      PlannerContext.track_file_change]

theorem planLoopBody_created_files (events : List Event) :
    ∀ st : LoopState,
    (planLoopBody st events).state.ctx.created_files = st.ctx.created_files := by
  induction events with
  | nil => intro st; simp [planLoopBody, LoopResult.state]
  | cons e rest ih =>
    intro st
    cases e with
    | exc m => simp [planLoopBody, LoopResult.state]
    | call r =>
      cases hs : planStep st r with
      | terminal s st1 =>
        have hcf := planStep_created_files st r
        rw [hs] at hcf
        simp only [StepOutcome.state] at hcf
        simp only [planLoopBody, hs, LoopResult.state]
        exact hcf
      | next st1 =>
        have hcf := planStep_created_files st r
        rw [hs] at hcf
        simp only [StepOutcome.state] at hcf
        simp only [planLoopBody, hs]
        rw [ih st1]
        exact hcf

/-- C9: plan never modifies the created_files set of the context: the
whole loop leaves it unchanged (file writes are recorded only in the
per-round change set), both for the loop started the way plan starts it
and for every individual step. -/
theorem plan_preserves_created_files :
    (∀ (system_prompt : String) (ctx : PlannerContext) (fs : FileSystem)
        (events : List Event),
      (planLoopBody (initLoopState system_prompt ctx fs) events).state.ctx.created_files
        = ctx.created_files)
    ∧ (∀ (st : LoopState) (r : CallResult),
      (StepOutcome.state (planStep st r)).ctx.created_files = st.ctx.created_files) := by
  constructor
  · intro system_prompt ctx fs events
    rw [planLoopBody_created_files]
    rfl
  · exact planStep_created_files

theorem renderFiles_contains (l : List (String × String)) (p : String × String)
    (h : p ∈ l) :
    ∃ a b, (renderFiles l).data = a ++ (renderFileBlock p).data ++ b := by
  induction l with
  | nil => cases h
  | cons q rest ih =>
    rcases List.mem_cons.mp h with hq | hrest
    · subst hq
      exact ⟨[], (renderFiles rest).data, by simp [renderFiles, String.data_append]⟩
    · obtain ⟨a, b, hab⟩ := ih hrest
      exact ⟨(renderFileBlock q).data ++ a, b, by
        simp [renderFiles, String.data_append, hab]⟩

theorem readFile_create_file (fs : FileSystem) (f c : String) :
    readFile (create_file fs f c) f = Except.ok c := by
  simp [readFile, create_file, List.lookup]

/-- C5: writing a file via create_file and then building the next prompt
with that file among the created files reproduces the latest content
verbatim: the read returns it, the loaded map holds it, its rendered block
occurs verbatim inside the context message, and that context message is
the content of the prompt's user message. -/
theorem write_then_prompt_roundtrip (system_prompt user_input : String)
    (created : List String) (fs : FileSystem) (f c : String) (h : f ∈ created) :
    readFile (create_file fs f c) f = Except.ok c
    ∧ (f, c) ∈ _load_file_contents created (create_file fs f c)
    ∧ (∃ a b, (build_context_message user_input created (create_file fs f c)).data
        = a ++ (renderFileBlock (f, c)).data ++ b)
    ∧ _build_prompt system_prompt user_input created (create_file fs f c)
        = [systemMessage system_prompt,
           userMessage (build_context_message user_input created (create_file fs f c))] := by
  have hread : readFile (create_file fs f c) f = Except.ok c := readFile_create_file fs f c
  have hload : loadedContent (create_file fs f c) f = c := by
    simp [loadedContent, hread]
  have hmem : (f, c) ∈ _load_file_contents created (create_file fs f c) :=
    List.mem_map.mpr ⟨f, h, by rw [hload]⟩
  refine ⟨hread, hmem, ?_, rfl⟩
  have hne : ¬(_load_file_contents created (create_file fs f c)).isEmpty = true := by
    simp only [List.isEmpty_iff]
    intro hempty
    rw [hempty] at hmem
    cases hmem
  obtain ⟨a, b, hab⟩ :=
    renderFiles_contains (_load_file_contents created (create_file fs f c)) (f, c) hmem
  unfold build_context_message
  dsimp only
  rw [if_neg hne]
  refine ⟨("\nCurrent User Request:\n" ++ user_input ++ "\n\n").data
      ++ ("Relevant Files:\n" : String).data ++ a,
    b ++ ("\nAvailable Files: " ++ String.intercalate ", " created ++ "\n").data, ?_⟩
  simp [String.data_append, hab]

/-- C5 witness: a concrete write of notes.md followed by a prompt build
that includes it. -/
theorem write_then_prompt_roundtrip_w :
    readFile (create_file [] "notes.md" "hello world") "notes.md" = Except.ok "hello world"
    ∧ ("notes.md", "hello world")
        ∈ _load_file_contents ["notes.md"] (create_file [] "notes.md" "hello world")
    ∧ (∃ a b,
        (build_context_message "find sources" ["notes.md"]
          (create_file [] "notes.md" "hello world")).data
        = a ++ (renderFileBlock ("notes.md", "hello world")).data ++ b)
    ∧ _build_prompt "sp" "find sources" ["notes.md"]
          (create_file [] "notes.md" "hello world")
        = [systemMessage "sp",
           userMessage (build_context_message "find sources" ["notes.md"]
             (create_file [] "notes.md" "hello world"))] :=
  write_then_prompt_roundtrip "sp" "find sources" ["notes.md"] [] "notes.md" "hello world"
    (by simp)

/-- A context in debug mode, as when the process runs with the debug
flag. -/
def dbgCtx : PlannerContext := { wCtx with debug := true }

/-- C6 counterexample: with debug mode on, an exception raised while
dumping the prompt to disk (line 193, before the try block) propagates
uncaught out of plan instead of becoming the textual error result. -/
theorem plan_exception_cex :
    plan "sp" (Except.error "No space left on device") [] dbgCtx []
      = PlanResult.uncaught "No space left on device" := by
  rfl

/-- C6 (amended): every exception raised inside the planning while-loop is
caught at the top level and plan returns the textual error string; only an
exception raised before the loop while dumping the debug prompt (debug
mode only) propagates to the caller. -/
theorem plan_catches_loop_exceptions (system_prompt : String)
    (dump_prompt : Except String Unit) (events : List Event)
    (ctx : PlannerContext) (fs : FileSystem) (m : String) (st1 : LoopState)
    (hdump : ctx.debug = true → dump_prompt = Except.ok ())
    (hloop : planLoopBody (initLoopState system_prompt ctx fs) events
      = LoopResult.raised m st1) :
    plan system_prompt dump_prompt events ctx fs
      = PlanResult.returned ("Error during planning: " ++ m) st1 := by
  unfold plan
  by_cases hd : ctx.debug
  · rw [if_pos hd, hdump hd]
    show finishLoop (planLoopBody (initLoopState system_prompt ctx fs) events) = _
    rw [hloop]
    rfl
  · rw [if_neg hd]
    show finishLoop (planLoopBody (initLoopState system_prompt ctx fs) events) = _
    rw [hloop]
    rfl

/-- C6 witness: an exception event in a non-debug round becomes the error
string. -/
theorem plan_catches_loop_exceptions_w :
    plan "sp" (Except.ok ()) [Event.exc "boom"] wCtx []
      = PlanResult.returned ("Error during planning: " ++ "boom")
          (initLoopState "sp" wCtx []) :=
  plan_catches_loop_exceptions "sp" (Except.ok ()) [Event.exc "boom"] wCtx [] "boom"
    (initLoopState "sp" wCtx []) (fun _ => rfl) rfl

end PlannerSpec
